import Mathlib

/-!
# Verification of the `konsumer_offsets` binary decoder

Shallow embedding of the `__consumer_offsets` record decoder
(`src/konsumer_offsets_data.rs`, `src/offset_commit.rs`, `src/group_metadata.rs`,
`src/utils.rs`, `src/errors.rs`), compiled with the `ts_int` timestamp feature
(timestamps are plain `i64` milliseconds).

Representation choices:
* a byte stream is a `List Nat` of byte values (each `< 256` on real inputs);
  a stateful `BytesParser` cursor is modelled by consuming from the front of
  the list, so "cursor position" is input length minus remaining length;
* Rust machine integers (`i16`/`i32`/`i64`) are Lean `Int`s produced by an
  explicit two's-complement reinterpretation of the big-endian bytes;
* Rust `String` values are kept as their UTF-8 byte lists (`Bytes`), so the
  empty string is `[]`;
* fallible Rust functions returning `Result` become `Except`;
* the one reachable panic in the source (`Vec::with_capacity` called with a
  negative `i32` member count cast to `usize`, which exceeds `isize::MAX`
  bytes and triggers Rust's documented "capacity overflow" panic) is modelled
  by an outer `Option`: `none` is a panic, `some r` a returned `Result`.

The primitive cursor operations mirror the external `bytes_parser` crate as
described by the specification: big-endian fixed-width integer reads and
bounded slice reads, failing with an insufficient-data error when fewer bytes
remain than requested, and UTF-8 validation for text reads.
-/

/-- A byte stream: the not-yet-consumed bytes, most significant end first. -/
abbrev Bytes := List Nat

/-- Failure modes of the primitive cursor reader (the `bytes_parser` crate):
running out of bytes mid-read, or a byte span that is not valid UTF-8. -/
inductive BytesParserError where
  | NotEnoughBytes
  | InvalidText
deriving DecidableEq, Repr

/-- The closed error taxonomy of `src/errors.rs` (with the `ts_int` feature,
so the chrono-only variant is absent). -/
inductive KonsumerOffsetsError where
  | MessageKeyMissing
  | ByteParsingError (e : BytesParserError)
  | UnsupportedMessageVersion (v : Int)
  | UnsupportedOffsetCommitSchema (v : Int)
  | UnsupportedGroupMetadataSchema (v : Int)
  | UnsupportedConsumerProtocolSubscriptionVersion (v : Int)
  | UnsupportedConsumerProtocolAssignmentVersion (v : Int)
  | UnableToParseForVersion (s : String) (v : Int) (parent : String)
deriving DecidableEq, Repr

/-- Reinterpret an unsigned `w`-bit value as a two's-complement signed value. -/
def toSigned (w : Nat) (u : Nat) : Int :=
  if u < 2 ^ (w - 1) then (u : Int) else (u : Int) - 2 ^ w

/-- Truncate a signed value to its unsigned `w`-bit representation. -/
def toUnsigned (w : Nat) (v : Int) : Nat := (v % (2 : Int) ^ w).toNat

/-- Rust's `as usize` cast of an `i32`, on a 64-bit target: sign-extend and
reinterpret, i.e. take the value modulo `2^64`. -/
def usize_of_i32 (v : Int) : Nat := (v % (2 : Int) ^ 64).toNat

/-- Big-endian value of a byte list. -/
def beVal (l : List Nat) : Nat := l.foldl (fun a b => 256 * a + b) 0

/-- Big-endian encoding of `u` on `n` bytes (least significant byte last). -/
def be : Nat → Nat → List Nat
  | 0, _ => []
  | n + 1, u => be n (u / 256) ++ [u % 256]

namespace BytesParser

/-- Read `n` raw bytes as an unsigned big-endian value, advancing the cursor. -/
def readBE (n : Nat) (bs : Bytes) : Except BytesParserError (Nat × Bytes) :=
  if bs.length < n then .error .NotEnoughBytes
  else .ok (beVal (bs.take n), bs.drop n)

/-- `BytesParser::parse_i16`: two bytes, big-endian, two's complement. -/
def parse_i16 (bs : Bytes) : Except BytesParserError (Int × Bytes) :=
  match readBE 2 bs with
  | .error e => .error e
  | .ok (u, r) => .ok (toSigned 16 u, r)

/-- `BytesParser::parse_i32`: four bytes, big-endian, two's complement. -/
def parse_i32 (bs : Bytes) : Except BytesParserError (Int × Bytes) :=
  match readBE 4 bs with
  | .error e => .error e
  | .ok (u, r) => .ok (toSigned 32 u, r)

/-- `BytesParser::parse_i64`: eight bytes, big-endian, two's complement. -/
def parse_i64 (bs : Bytes) : Except BytesParserError (Int × Bytes) :=
  match readBE 8 bs with
  | .error e => .error e
  | .ok (u, r) => .ok (toSigned 64 u, r)

/-- `BytesParser::parse_slice(n)`: the next `n` bytes verbatim. -/
def parse_slice (n : Nat) (bs : Bytes) : Except BytesParserError (Bytes × Bytes) :=
  if bs.length < n then .error .NotEnoughBytes
  else .ok (bs.take n, bs.drop n)

end BytesParser

/-- Whether a continuation byte is in `0x80 ..= 0xBF`. -/
def utf8Cont (b : Nat) : Bool := 0x80 ≤ b && b ≤ 0xBF

/-- Strict UTF-8 validity of a byte list (rejecting overlong encodings,
surrogates and values above `U+10FFFF`), as Rust's `str::from_utf8` checks. -/
def utf8Valid : List Nat → Bool
  | [] => true
  | b0 :: rest =>
    if b0 ≤ 0x7F then utf8Valid rest
    else if 0xC2 ≤ b0 && b0 ≤ 0xDF then
      match rest with
      | b1 :: rest1 => utf8Cont b1 && utf8Valid rest1
      | [] => false
    else if b0 = 0xE0 then
      match rest with
      | b1 :: b2 :: rest2 => (0xA0 ≤ b1 && b1 ≤ 0xBF) && utf8Cont b2 && utf8Valid rest2
      | _ => false
    else if (0xE1 ≤ b0 && b0 ≤ 0xEC) || b0 = 0xEE || b0 = 0xEF then
      match rest with
      | b1 :: b2 :: rest2 => utf8Cont b1 && utf8Cont b2 && utf8Valid rest2
      | _ => false
    else if b0 = 0xED then
      match rest with
      | b1 :: b2 :: rest2 => (0x80 ≤ b1 && b1 ≤ 0x9F) && utf8Cont b2 && utf8Valid rest2
      | _ => false
    else if b0 = 0xF0 then
      match rest with
      | b1 :: b2 :: b3 :: rest3 =>
        (0x90 ≤ b1 && b1 ≤ 0xBF) && utf8Cont b2 && utf8Cont b3 && utf8Valid rest3
      | _ => false
    else if 0xF1 ≤ b0 && b0 ≤ 0xF3 then
      match rest with
      | b1 :: b2 :: b3 :: rest3 =>
        utf8Cont b1 && utf8Cont b2 && utf8Cont b3 && utf8Valid rest3
      | _ => false
    else if b0 = 0xF4 then
      match rest with
      | b1 :: b2 :: b3 :: rest3 =>
        (0x80 ≤ b1 && b1 ≤ 0x8F) && utf8Cont b2 && utf8Cont b3 && utf8Valid rest3
      | _ => false
    else false

/-- `BytesParser::parse_str_utf8(n)`: the next `n` bytes, validated as UTF-8. -/
def BytesParser.parse_str_utf8 (n : Nat) (bs : Bytes) :
    Except BytesParserError (Bytes × Bytes) :=
  match BytesParser.parse_slice n bs with
  | .error e => .error e
  | .ok (s, r) => if utf8Valid s then .ok (s, r) else .error .InvalidText

/-- Lift a primitive cursor result into the crate error type, as the
`.map_err(KonsumerOffsetsError::ByteParsingError)` adapters in `utils.rs` do. -/
def wrapBP {α : Type} (x : Except BytesParserError (α × Bytes)) :
    Except KonsumerOffsetsError (α × Bytes) :=
  match x with
  | .error e => .error (.ByteParsingError e)
  | .ok v => .ok v

/-- `utils::parse_i16`. -/
def parse_i16 (bs : Bytes) : Except KonsumerOffsetsError (Int × Bytes) :=
  wrapBP (BytesParser.parse_i16 bs)

/-- `utils::parse_i32`. -/
def parse_i32 (bs : Bytes) : Except KonsumerOffsetsError (Int × Bytes) :=
  wrapBP (BytesParser.parse_i32 bs)

/-- `utils::parse_i64`. -/
def parse_i64 (bs : Bytes) : Except KonsumerOffsetsError (Int × Bytes) :=
  wrapBP (BytesParser.parse_i64 bs)

/-- `utils::parse_str`: read an `i16` length; a negative length yields the
empty string (`String::default()`) without an error and without consuming
further bytes; otherwise read exactly that many bytes as UTF-8. -/
def parse_str (bs : Bytes) : Except KonsumerOffsetsError (Bytes × Bytes) :=
  match parse_i16 bs with
  | .error e => .error e
  | .ok (len, r) =>
    if len < 0 then .ok ([], r)
    else wrapBP (BytesParser.parse_str_utf8 len.toNat r)

/-- `utils::parse_vec_bytes`: read an `i32` length, then that many raw bytes
(the length is cast with `as usize`, so a negative length becomes a huge
request and surfaces as insufficient-data). -/
def parse_vec_bytes (bs : Bytes) : Except KonsumerOffsetsError (Bytes × Bytes) :=
  match parse_i32 bs with
  | .error e => .error e
  | .ok (len, r) => wrapBP (BytesParser.parse_slice (usize_of_i32 len) r)

/-- Sequencing of a cursor-threading parse step, as Rust's `?` operator. -/
def pbind {α β : Type} (x : Except KonsumerOffsetsError (α × Bytes))
    (f : α → Bytes → Except KonsumerOffsetsError (β × Bytes)) :
    Except KonsumerOffsetsError (β × Bytes) :=
  match x with
  | .error e => .error e
  | .ok (a, r) => f a r

/-- Run a parse step `n` times in sequence, collecting the results in order
(the `for _ in 0..len { v.push(step?) }` loops of the source). -/
def parseListN {α : Type} (p : Bytes → Except KonsumerOffsetsError (α × Bytes)) :
    Nat → Bytes → Except KonsumerOffsetsError (List α × Bytes)
  | 0, bs => .ok ([], bs)
  | n + 1, bs =>
    match p bs with
    | .error e => .error e
    | .ok (a, r) =>
      match parseListN p n r with
      | .error e => .error e
      | .ok (l, r2) => .ok (a :: l, r2)

/-- `TopicPartitions` (`group_metadata.rs`): a topic and its partition list. -/
structure TopicPartitions where
  topic : Bytes
  partitions : List Int
deriving DecidableEq, Repr

/-- `ConsumerProtocolSubscription` (`group_metadata.rs`). -/
structure ConsumerProtocolSubscription where
  schema_version : Int
  subscribed_topics : List Bytes
  user_data : Bytes
  owned_topic_partitions : List TopicPartitions
  generation_id : Int
  rack_id : Bytes
deriving DecidableEq, Repr

/-- `ConsumerProtocolAssignment` (`group_metadata.rs`). -/
structure ConsumerProtocolAssignment where
  schema_version : Int
  assigned_topic_partitions : List TopicPartitions
  user_data : Bytes
deriving DecidableEq, Repr

/-- `MemberMetadata` (`group_metadata.rs`). -/
structure MemberMetadata where
  id : Bytes
  group_instance_id : Bytes
  client_id : Bytes
  client_host : Bytes
  rebalance_timeout : Int
  session_timeout : Int
  subscription : ConsumerProtocolSubscription
  assignment : ConsumerProtocolAssignment
deriving DecidableEq, Repr

/-- `GroupMetadata` (`group_metadata.rs`, `ts_int` feature: the current-state
timestamp is an `i64`). -/
structure GroupMetadata where
  message_version : Int
  group : Bytes
  is_tombstone : Bool
  schema_version : Int
  protocol_type : Bytes
  generation : Int
  protocol : Bytes
  leader : Bytes
  current_state_timestamp : Int
  members : List MemberMetadata
deriving DecidableEq, Repr

/-- `OffsetCommit` (`offset_commit.rs`, `ts_int` feature: timestamps are
`i64`). -/
structure OffsetCommit where
  message_version : Int
  group : Bytes
  topic : Bytes
  partition : Int
  is_tombstone : Bool
  schema_version : Int
  offset : Int
  leader_epoch : Int
  metadata : Bytes
  commit_timestamp : Int
  expire_timestamp : Int
deriving DecidableEq, Repr

/-- `TopicPartitions::try_from(parser, version)`: guard against versions above
3 first (the error names the structure and, unconditionally, the
`ConsumerProtocolSubscription` parent type — the source hardcodes
`type_name::<ConsumerProtocolSubscription>()` there; the type names are
rendered with the spec's short form), then read the topic and the guarded
partition list. -/
def TopicPartitions.try_from (bs : Bytes) (version : Int) :
    Except KonsumerOffsetsError (TopicPartitions × Bytes) :=
  if 3 < version then
    .error (.UnableToParseForVersion "TopicPartitions" version "ConsumerProtocolSubscription")
  else
    pbind (parse_str bs) fun topic r0 =>
    pbind (parse_i32 r0) fun partitions_len r1 =>
    pbind (if 0 < partitions_len then
             parseListN parse_i32 partitions_len.toNat r1
           else .ok ([], r1)) fun partitions r2 =>
    .ok ({ topic := topic, partitions := partitions }, r2)

/-- `ConsumerProtocolSubscription::try_from(parser)`: own version (validated
to `[0,3]`), subscribed topics, user data, then version-gated owned topic
partitions, generation id and rack id. -/
def ConsumerProtocolSubscription.try_from (bs : Bytes) :
    Except KonsumerOffsetsError (ConsumerProtocolSubscription × Bytes) :=
  pbind (parse_i16 bs) fun sv r0 =>
  if ¬ (0 ≤ sv ∧ sv ≤ 3) then
    .error (.UnsupportedConsumerProtocolSubscriptionVersion sv)
  else
    pbind (parse_i32 r0) fun subscribed_topics_len r1 =>
    pbind (if 0 < subscribed_topics_len then
             parseListN parse_str subscribed_topics_len.toNat r1
           else .ok ([], r1)) fun topics r2 =>
    pbind (parse_vec_bytes r2) fun user_data r3 =>
    pbind (if 1 ≤ sv then
             pbind (parse_i32 r3) fun owned_len r4 =>
             if 0 < owned_len then
               parseListN (fun b => TopicPartitions.try_from b sv) owned_len.toNat r4
             else .ok ([], r4)
           else .ok ([], r3)) fun owned r5 =>
    pbind (if 2 ≤ sv then parse_i32 r5 else .ok (-1, r5)) fun generation_id r6 =>
    pbind (if 3 ≤ sv then parse_str r6 else .ok ([], r6)) fun rack_id r7 =>
    .ok ({ schema_version := sv, subscribed_topics := topics, user_data := user_data,
           owned_topic_partitions := owned, generation_id := generation_id,
           rack_id := rack_id }, r7)

/-- `ConsumerProtocolAssignment::try_from(parser)`: own version (validated to
`[0,3]`), assigned topic partitions at that version, user data. -/
def ConsumerProtocolAssignment.try_from (bs : Bytes) :
    Except KonsumerOffsetsError (ConsumerProtocolAssignment × Bytes) :=
  pbind (parse_i16 bs) fun sv r0 =>
  if ¬ (0 ≤ sv ∧ sv ≤ 3) then
    .error (.UnsupportedConsumerProtocolAssignmentVersion sv)
  else
    pbind (parse_i32 r0) fun assigned_len r1 =>
    pbind (if 0 < assigned_len then
             parseListN (fun b => TopicPartitions.try_from b sv) assigned_len.toNat r1
           else .ok ([], r1)) fun assigned r2 =>
    pbind (parse_vec_bytes r2) fun user_data r3 =>
    .ok ({ schema_version := sv, assigned_topic_partitions := assigned,
           user_data := user_data }, r3)

/-- `MemberMetadata::try_from(parser, schema_version)`: the version-gated
member fields, then for each of the two nested blobs an `i32` length is read,
exactly that many bytes are carved into an isolated sub-cursor
(`parser.from_slice(len as usize)`), the nested structure is decoded from the
carved bytes alone, and any leftover carved bytes are ignored; the outer
cursor continues right after the carved span. -/
def MemberMetadata.try_from (bs : Bytes) (schema_version : Int) :
    Except KonsumerOffsetsError (MemberMetadata × Bytes) :=
  pbind (parse_str bs) fun id r0 =>
  pbind (if 3 ≤ schema_version then parse_str r0 else .ok ([], r0)) fun gii r1 =>
  pbind (parse_str r1) fun client_id r2 =>
  pbind (parse_str r2) fun client_host r3 =>
  pbind (if 1 ≤ schema_version then parse_i32 r3 else .ok (0, r3)) fun rebalance r4 =>
  pbind (parse_i32 r4) fun session r5 =>
  pbind (parse_i32 r5) fun sub_len r6 =>
  pbind (wrapBP (BytesParser.parse_slice (usize_of_i32 sub_len) r6)) fun sub_bytes r7 =>
  match ConsumerProtocolSubscription.try_from sub_bytes with
  | .error e => .error e
  | .ok (subscription, _) =>
    pbind (parse_i32 r7) fun asg_len r8 =>
    pbind (wrapBP (BytesParser.parse_slice (usize_of_i32 asg_len) r8)) fun asg_bytes r9 =>
    match ConsumerProtocolAssignment.try_from asg_bytes with
    | .error e => .error e
    | .ok (assignment, _) =>
      .ok ({ id := id, group_instance_id := gii, client_id := client_id,
             client_host := client_host, rebalance_timeout := rebalance,
             session_timeout := session, subscription := subscription,
             assignment := assignment }, r9)

/-- `GroupMetadata::try_from(parser, message_version)`: the key phase — read
the group name, mark the record a tombstone, leave every payload field at its
`Default::default()` value. -/
def GroupMetadata.try_from (bs : Bytes) (message_version : Int) :
    Except KonsumerOffsetsError (GroupMetadata × Bytes) :=
  pbind (parse_str bs) fun group r0 =>
  .ok ({ message_version := message_version, group := group, is_tombstone := true,
         schema_version := 0, protocol_type := [], generation := 0, protocol := [],
         leader := [], current_state_timestamp := 0, members := [] }, r0)

/-- `GroupMetadata::parse_payload(parser)`: schema version (validated to
`[0,3]`), the fixed field sequence with the version-gated timestamp, then the
member count and that many members.  The member count is *not* guarded for
positivity: the source runs `Vec::with_capacity(members_len as usize)` before
the loop, and for a negative count the `as usize` cast yields at least
`2^64 - 2^31`, which exceeds `isize::MAX` bytes for the non-zero-sized
`MemberMetadata` element type, so `Vec::with_capacity` panics with Rust's
documented "capacity overflow"; that panic is the `none` outcome. -/
def GroupMetadata.parse_payload (gm : GroupMetadata) (bs : Bytes) :
    Option (Except KonsumerOffsetsError (GroupMetadata × Bytes)) :=
  match parse_i16 bs with
  | .error e => some (.error e)
  | .ok (sv, r0) =>
    if ¬ (0 ≤ sv ∧ sv ≤ 3) then some (.error (.UnsupportedGroupMetadataSchema sv))
    else
      match parse_str r0 with
      | .error e => some (.error e)
      | .ok (protocol_type, r1) =>
        match parse_i32 r1 with
        | .error e => some (.error e)
        | .ok (generation, r2) =>
          match parse_str r2 with
          | .error e => some (.error e)
          | .ok (protocol, r3) =>
            match parse_str r3 with
            | .error e => some (.error e)
            | .ok (leader, r4) =>
              match (if 2 ≤ sv then parse_i64 r4 else .ok (-1, r4)) with
              | .error e => some (.error e)
              | .ok (cst, r5) =>
                match parse_i32 r5 with
                | .error e => some (.error e)
                | .ok (members_len, r6) =>
                  if members_len < 0 then none
                  else
                    match parseListN (fun b => MemberMetadata.try_from b sv)
                        members_len.toNat r6 with
                    | .error e => some (.error e)
                    | .ok (members, r7) =>
                      some (.ok ({ gm with
                                   is_tombstone := false
                                   schema_version := sv
                                   protocol_type := protocol_type
                                   generation := generation
                                   protocol := protocol
                                   leader := leader
                                   current_state_timestamp := cst
                                   members := members }, r7))

/-- `OffsetCommit::try_from(parser, message_version)`: the key phase — read
group, topic and partition, mark the record a tombstone, leave every payload
field at its `Default::default()` value. -/
def OffsetCommit.try_from (bs : Bytes) (message_version : Int) :
    Except KonsumerOffsetsError (OffsetCommit × Bytes) :=
  pbind (parse_str bs) fun group r0 =>
  pbind (parse_str r0) fun topic r1 =>
  pbind (parse_i32 r1) fun partition r2 =>
  .ok ({ message_version := message_version, group := group, topic := topic,
         partition := partition, is_tombstone := true, schema_version := 0,
         offset := 0, leader_epoch := 0, metadata := [], commit_timestamp := 0,
         expire_timestamp := 0 }, r2)

/-- `OffsetCommit::parse_payload(parser)` (`ts_int` feature): clear the
tombstone flag, read the schema version (validated to `[0,3]`), then the
fixed field sequence `offset`, gated `leader_epoch`, `metadata`,
`commit_timestamp`, gated `expire_timestamp`. -/
def OffsetCommit.parse_payload (oc : OffsetCommit) (bs : Bytes) :
    Except KonsumerOffsetsError (OffsetCommit × Bytes) :=
  pbind (parse_i16 bs) fun sv r0 =>
  if ¬ (0 ≤ sv ∧ sv ≤ 3) then .error (.UnsupportedOffsetCommitSchema sv)
  else
    pbind (parse_i64 r0) fun offset r1 =>
    pbind (if 3 ≤ sv then parse_i32 r1 else .ok (-1, r1)) fun leader_epoch r2 =>
    pbind (parse_str r2) fun metadata r3 =>
    pbind (parse_i64 r3) fun commit_ts r4 =>
    pbind (if sv = 1 then parse_i64 r4 else .ok (-1, r4)) fun expire_ts r5 =>
    .ok ({ oc with
           is_tombstone := false
           schema_version := sv
           offset := offset
           leader_epoch := leader_epoch
           metadata := metadata
           commit_timestamp := commit_ts
           expire_timestamp := expire_ts }, r5)

/-- `KonsumerOffsetsData` (`konsumer_offsets_data.rs`): the tagged result. -/
inductive KonsumerOffsetsData where
  | OffsetCommit (oc : OffsetCommit)
  | GroupMetadata (gm : GroupMetadata)
deriving DecidableEq, Repr

/-- `KonsumerOffsetsData::try_from_bytes(key, payload)`: the dispatcher.  A
missing key fails; otherwise the leading `i16` of the key routes to the
commit decoder (`0..=1`), the group-metadata decoder (`2`) or the
unsupported-message-version error.  A present payload is parsed by the chosen
variant's payload routine (any payload bytes left over after it are ignored);
an absent payload leaves the record a tombstone.  The outer `Option` is
`none` exactly when the decode panics (see `GroupMetadata.parse_payload`). -/
def KonsumerOffsetsData.try_from_bytes (key payload : Option Bytes) :
    Option (Except KonsumerOffsetsError KonsumerOffsetsData) :=
  match key with
  | none => some (.error .MessageKeyMissing)
  | some key_bytes =>
    match parse_i16 key_bytes with
    | .error e => some (.error e)
    | .ok (message_version, kr) =>
      if message_version = 0 ∨ message_version = 1 then
        match OffsetCommit.try_from kr message_version with
        | .error e => some (.error e)
        | .ok (oc, _) =>
          match payload with
          | none => some (.ok (.OffsetCommit oc))
          | some payload_bytes =>
            match oc.parse_payload payload_bytes with
            | .error e => some (.error e)
            | .ok (oc2, _) => some (.ok (.OffsetCommit oc2))
      else if message_version = 2 then
        match GroupMetadata.try_from kr message_version with
        | .error e => some (.error e)
        | .ok (gm, _) =>
          match payload with
          | none => some (.ok (.GroupMetadata gm))
          | some payload_bytes =>
            match gm.parse_payload payload_bytes with
            | none => none
            | some (.error e) => some (.error e)
            | some (.ok (gm2, _)) => some (.ok (.GroupMetadata gm2))
      else some (.error (.UnsupportedMessageVersion message_version))

/-! ## Encoding helpers and round-trip lemmas for the primitive reads -/

/-- Big-endian `i16` encoding of an in-range value. -/
def enc16 (v : Int) : Bytes := be 2 (toUnsigned 16 v)

/-- Big-endian `i32` encoding of an in-range value. -/
def enc32 (v : Int) : Bytes := be 4 (toUnsigned 32 v)

/-- Big-endian `i64` encoding of an in-range value. -/
def enc64 (v : Int) : Bytes := be 8 (toUnsigned 64 v)

/-- Wire encoding of a string: `i16` length followed by the UTF-8 bytes. -/
def encStr (s : Bytes) : Bytes := enc16 (s.length : Int) ++ s

/-- Wire encoding of a byte array: `i32` length followed by the raw bytes. -/
def encVec (d : Bytes) : Bytes := enc32 (d.length : Int) ++ d

theorem be_length (n : Nat) : ∀ u, (be n u).length = n := by
  induction n with
  | zero => intro u; simp [be]
  | succ n ih => intro u; simp [be, ih]

theorem beVal_be (n : Nat) : ∀ u, beVal (be n u) = u % 256 ^ n := by
  induction n with
  | zero => intro u; simp [be, beVal, Nat.mod_one]
  | succ n ih =>
    intro u
    have h1 : beVal (be (n + 1) u) = 256 * beVal (be n (u / 256)) + u % 256 := by
      simp [be, beVal, List.foldl_append]
    rw [h1, ih, pow_succ, mul_comm (256 ^ n) 256, Nat.mod_mul]
    ring

theorem readBE_be (n u : Nat) (r : Bytes) (h : u < 256 ^ n) :
    BytesParser.readBE n (be n u ++ r) = .ok (u, r) := by
  have hlen : (be n u).length = n := be_length n u
  have hnot : ¬ ((be n u ++ r).length < n) := by
    simp [List.length_append, hlen]
  rw [BytesParser.readBE, if_neg hnot, List.take_left' hlen, List.drop_left' hlen,
    beVal_be, Nat.mod_eq_of_lt h]

theorem toSigned_toUnsigned_16 (v : Int) (h1 : -(2 ^ 15) ≤ v) (h2 : v < 2 ^ 15) :
    toSigned 16 (toUnsigned 16 v) = v := by
  unfold toSigned toUnsigned
  norm_num
  omega

theorem toSigned_toUnsigned_32 (v : Int) (h1 : -(2 ^ 31) ≤ v) (h2 : v < 2 ^ 31) :
    toSigned 32 (toUnsigned 32 v) = v := by
  unfold toSigned toUnsigned
  norm_num
  omega

theorem toSigned_toUnsigned_64 (v : Int) (h1 : -(2 ^ 63) ≤ v) (h2 : v < 2 ^ 63) :
    toSigned 64 (toUnsigned 64 v) = v := by
  unfold toSigned toUnsigned
  norm_num
  omega

theorem toUnsigned_lt (w : Nat) (v : Int) : toUnsigned w v < 2 ^ w := by
  unfold toUnsigned
  have h1 : (0 : Int) < 2 ^ w := by positivity
  have h2 := Int.emod_lt_of_pos v h1
  have h3 := Int.emod_nonneg v (ne_of_gt h1)
  have hc : ((2 ^ w : Nat) : Int) = (2 : Int) ^ w := by push_cast; ring
  omega

theorem dec_i16 (v : Int) (r : Bytes) (h1 : -(2 ^ 15) ≤ v) (h2 : v < 2 ^ 15) :
    parse_i16 (enc16 v ++ r) = .ok (v, r) := by
  have hu : toUnsigned 16 v < 256 ^ 2 := by
    have := toUnsigned_lt 16 v; norm_num at this ⊢; omega
  have hb : BytesParser.parse_i16 (enc16 v ++ r)
      = .ok (toSigned 16 (toUnsigned 16 v), r) := by
    rw [BytesParser.parse_i16, enc16, readBE_be 2 _ r hu]
  rw [parse_i16, hb, toSigned_toUnsigned_16 v h1 h2]
  rfl

theorem dec_i32 (v : Int) (r : Bytes) (h1 : -(2 ^ 31) ≤ v) (h2 : v < 2 ^ 31) :
    parse_i32 (enc32 v ++ r) = .ok (v, r) := by
  have hu : toUnsigned 32 v < 256 ^ 4 := by
    have := toUnsigned_lt 32 v; norm_num at this ⊢; omega
  have hb : BytesParser.parse_i32 (enc32 v ++ r)
      = .ok (toSigned 32 (toUnsigned 32 v), r) := by
    rw [BytesParser.parse_i32, enc32, readBE_be 4 _ r hu]
  rw [parse_i32, hb, toSigned_toUnsigned_32 v h1 h2]
  rfl

theorem dec_i64 (v : Int) (r : Bytes) (h1 : -(2 ^ 63) ≤ v) (h2 : v < 2 ^ 63) :
    parse_i64 (enc64 v ++ r) = .ok (v, r) := by
  have hu : toUnsigned 64 v < 256 ^ 8 := by
    have := toUnsigned_lt 64 v; norm_num at this ⊢; omega
  have hb : BytesParser.parse_i64 (enc64 v ++ r)
      = .ok (toSigned 64 (toUnsigned 64 v), r) := by
    rw [BytesParser.parse_i64, enc64, readBE_be 8 _ r hu]
  rw [parse_i64, hb, toSigned_toUnsigned_64 v h1 h2]
  rfl

theorem parse_slice_exact (s r : Bytes) :
    BytesParser.parse_slice s.length (s ++ r) = .ok (s, r) := by
  have hnot : ¬ ((s ++ r).length < s.length) := by simp [List.length_append]
  rw [BytesParser.parse_slice, if_neg hnot, List.take_left, List.drop_left]

theorem dec_str (s : Bytes) (r : Bytes) (hlen : s.length < 2 ^ 15)
    (hval : utf8Valid s = true) : parse_str (encStr s ++ r) = .ok (s, r) := by
  have h16 : parse_i16 (enc16 (s.length : Int) ++ (s ++ r)) = .ok ((s.length : Int), s ++ r) :=
    dec_i16 _ _ (by omega) (by exact_mod_cast hlen)
  have hneg : ¬ ((s.length : Int) < 0) := by omega
  have htn : (s.length : Int).toNat = s.length := Int.toNat_natCast _
  simp only [encStr, List.append_assoc, parse_str, h16, if_neg hneg,
    BytesParser.parse_str_utf8, htn, parse_slice_exact, hval]
  rfl

theorem usize_of_i32_nonneg (v : Int) (h1 : 0 ≤ v) (h2 : v < 2 ^ 31) :
    usize_of_i32 v = v.toNat := by
  unfold usize_of_i32
  omega

theorem dec_vec (d : Bytes) (r : Bytes) (hlen : d.length < 2 ^ 31) :
    parse_vec_bytes (encVec d ++ r) = .ok (d, r) := by
  have h32 : parse_i32 (enc32 (d.length : Int) ++ (d ++ r)) = .ok ((d.length : Int), d ++ r) :=
    dec_i32 _ _ (by omega) (by exact_mod_cast hlen)
  have hu : usize_of_i32 (d.length : Int) = d.length := by
    rw [usize_of_i32_nonneg _ (by omega) (by exact_mod_cast hlen), Int.toNat_natCast]
  simp only [encVec, List.append_assoc, parse_vec_bytes, h32, hu, parse_slice_exact]
  rfl

theorem pbind_ok {α β : Type} (a : α) (r : Bytes)
    (f : α → Bytes → Except KonsumerOffsetsError (β × Bytes)) :
    pbind (.ok (a, r)) f = f a r := rfl

theorem pbind_err {α β : Type} (e : KonsumerOffsetsError)
    (f : α → Bytes → Except KonsumerOffsetsError (β × Bytes)) :
    pbind (.error e) f = .error e := rfl

/-! ## Error classification -/

/-- Errors that byte reads and the nested member decoders can produce:
byte-parsing failures and the two nested-blob version rejections. -/
def nestedSafeErr : KonsumerOffsetsError → Bool
  | .ByteParsingError _ => true
  | .UnsupportedConsumerProtocolSubscriptionVersion _ => true
  | .UnsupportedConsumerProtocolAssignmentVersion _ => true
  | _ => false

/-- Whether an error is the `UnableToParseForVersion` variant. -/
def isUTPFV : KonsumerOffsetsError → Bool
  | .UnableToParseForVersion _ _ _ => true
  | _ => false

theorem nestedSafeErr_not_utpfv (e : KonsumerOffsetsError)
    (h : nestedSafeErr e = true) : isUTPFV e = false := by
  cases e <;> simp_all [nestedSafeErr, isUTPFV]

theorem nestedSafeErr_not_ocs (e : KonsumerOffsetsError) (w : Int)
    (h : nestedSafeErr e = true) : e ≠ .UnsupportedOffsetCommitSchema w := by
  cases e <;> simp_all [nestedSafeErr]

theorem nestedSafeErr_not_gms (e : KonsumerOffsetsError) (w : Int)
    (h : nestedSafeErr e = true) : e ≠ .UnsupportedGroupMetadataSchema w := by
  cases e <;> simp_all [nestedSafeErr]

theorem wrapBP_err {α : Type} (x : Except BytesParserError (α × Bytes))
    (e : KonsumerOffsetsError) (h : wrapBP x = .error e) : nestedSafeErr e = true := by
  cases x with
  | error e' => rw [wrapBP] at h; injection h with h2; rw [← h2]; rfl
  | ok v => rw [wrapBP] at h; nomatch h

theorem parse_i16_err (bs : Bytes) (e : KonsumerOffsetsError)
    (h : parse_i16 bs = .error e) : nestedSafeErr e = true := wrapBP_err _ e h

theorem parse_i32_err (bs : Bytes) (e : KonsumerOffsetsError)
    (h : parse_i32 bs = .error e) : nestedSafeErr e = true := wrapBP_err _ e h

theorem parse_i64_err (bs : Bytes) (e : KonsumerOffsetsError)
    (h : parse_i64 bs = .error e) : nestedSafeErr e = true := wrapBP_err _ e h

theorem parse_str_err (bs : Bytes) (e : KonsumerOffsetsError)
    (h : parse_str bs = .error e) : nestedSafeErr e = true := by
  rw [parse_str] at h
  rcases h16 : parse_i16 bs with e' | ⟨len, r⟩
  · rw [h16] at h; injection h with h2; subst h2; exact parse_i16_err bs _ h16
  · simp only [h16] at h
    by_cases hneg : len < 0
    · rw [if_pos hneg] at h; nomatch h
    · rw [if_neg hneg] at h; exact wrapBP_err _ e h

theorem parse_vec_bytes_err (bs : Bytes) (e : KonsumerOffsetsError)
    (h : parse_vec_bytes bs = .error e) : nestedSafeErr e = true := by
  rw [parse_vec_bytes] at h
  rcases h32 : parse_i32 bs with e' | ⟨len, r⟩
  · rw [h32] at h; injection h with h2; subst h2; exact parse_i32_err bs _ h32
  · rw [h32] at h; exact wrapBP_err _ e h

theorem pbind_elim {α β : Type} {P : KonsumerOffsetsError → Prop}
    {x : Except KonsumerOffsetsError (α × Bytes)}
    {f : α → Bytes → Except KonsumerOffsetsError (β × Bytes)}
    (hx : ∀ e, x = .error e → P e)
    (hf : ∀ a r e, f a r = .error e → P e) :
    ∀ e, pbind x f = .error e → P e := by
  intro e h
  rcases hx' : x with e' | ⟨a, r⟩
  · rw [hx', pbind_err] at h
    injection h with h2
    subst h2
    exact hx e' hx'
  · rw [hx', pbind_ok] at h
    exact hf a r e h

theorem ok_no_err {α : Type} (a : α) (r : Bytes) :
    ∀ e, (Except.ok (a, r) : Except KonsumerOffsetsError (α × Bytes)) = .error e → nestedSafeErr e = true := by
  intro e h
  nomatch h

theorem parseListN_err {α : Type} (p : Bytes → Except KonsumerOffsetsError (α × Bytes))
    (hp : ∀ bs e, p bs = .error e → nestedSafeErr e = true) :
    ∀ (n : Nat) (bs : Bytes) (e : KonsumerOffsetsError),
      parseListN p n bs = .error e → nestedSafeErr e = true := by
  intro n
  induction n with
  | zero => intro bs e h; rw [parseListN] at h; nomatch h
  | succ n ih =>
    intro bs e h
    rw [parseListN] at h
    rcases hb : p bs with e1 | ⟨a, r⟩
    · rw [hb] at h; injection h with h2; subst h2; exact hp bs e1 hb
    · simp only [hb] at h
      rcases hl : parseListN p n r with e2 | ⟨l, r2⟩
      · rw [hl] at h; injection h with h2; subst h2; exact ih r e2 hl
      · rw [hl] at h; nomatch h

theorem ite_err_elim {α : Type} {P : KonsumerOffsetsError → Prop} (c : Prop) [Decidable c]
    {x y : Except KonsumerOffsetsError (α × Bytes)}
    (hx : ∀ e, x = .error e → P e) (hy : ∀ e, y = .error e → P e) :
    ∀ e, (if c then x else y) = .error e → P e := by
  intro e h
  by_cases hc : c
  · rw [if_pos hc] at h; exact hx e h
  · rw [if_neg hc] at h; exact hy e h

theorem tp_err (bs : Bytes) (v : Int) (hv : v ≤ 3) :
    ∀ e, TopicPartitions.try_from bs v = .error e → nestedSafeErr e = true := by
  intro e h
  rw [TopicPartitions.try_from, if_neg (by omega)] at h
  refine pbind_elim (parse_str_err bs) (fun topic r0 => ?_) e h
  refine pbind_elim (parse_i32_err r0) (fun np r1 => ?_)
  refine pbind_elim (ite_err_elim _ (parseListN_err parse_i32 parse_i32_err np.toNat r1)
    (ok_no_err _ _)) (fun parts r2 => ok_no_err _ _)

theorem sub_err (bs : Bytes) :
    ∀ e, ConsumerProtocolSubscription.try_from bs = .error e → nestedSafeErr e = true := by
  intro e h
  rw [ConsumerProtocolSubscription.try_from] at h
  refine pbind_elim (parse_i16_err bs) (fun sv r0 => ?_) e h
  intro e' h'
  by_cases hsv : 0 ≤ sv ∧ sv ≤ 3
  · rw [if_neg (not_not_intro hsv)] at h'
    refine pbind_elim (parse_i32_err r0) (fun ntop r1 => ?_) e' h'
    refine pbind_elim (ite_err_elim _ (parseListN_err parse_str parse_str_err ntop.toNat r1)
      (ok_no_err _ _)) (fun topics r2 => ?_)
    refine pbind_elim (parse_vec_bytes_err r2) (fun ud r3 => ?_)
    refine pbind_elim (ite_err_elim _ (pbind_elim (parse_i32_err r3) (fun ol r4 =>
      ite_err_elim _ (parseListN_err _ (fun b => tp_err b sv hsv.2) ol.toNat r4)
        (ok_no_err _ _))) (ok_no_err _ _)) (fun owned r5 => ?_)
    refine pbind_elim (ite_err_elim _ (parse_i32_err r5) (ok_no_err _ _)) (fun gi r6 => ?_)
    refine pbind_elim (ite_err_elim _ (parse_str_err r6) (ok_no_err _ _))
      (fun rack r7 => ok_no_err _ _)
  · rw [if_pos hsv] at h'
    injection h' with h2
    subst h2
    rfl

theorem asg_err (bs : Bytes) :
    ∀ e, ConsumerProtocolAssignment.try_from bs = .error e → nestedSafeErr e = true := by
  intro e h
  rw [ConsumerProtocolAssignment.try_from] at h
  refine pbind_elim (parse_i16_err bs) (fun sv r0 => ?_) e h
  intro e' h'
  by_cases hsv : 0 ≤ sv ∧ sv ≤ 3
  · rw [if_neg (not_not_intro hsv)] at h'
    refine pbind_elim (parse_i32_err r0) (fun na r1 => ?_) e' h'
    refine pbind_elim (ite_err_elim _
      (parseListN_err _ (fun b => tp_err b sv hsv.2) na.toNat r1) (ok_no_err _ _))
      (fun assigned r2 => ?_)
    refine pbind_elim (parse_vec_bytes_err r2) (fun ud r3 => ok_no_err _ _)
  · rw [if_pos hsv] at h'
    injection h' with h2
    subst h2
    rfl

theorem member_err (bs : Bytes) (sv : Int) :
    ∀ e, MemberMetadata.try_from bs sv = .error e → nestedSafeErr e = true := by
  intro e h
  rw [MemberMetadata.try_from] at h
  refine pbind_elim (parse_str_err bs) (fun id r0 => ?_) e h
  refine pbind_elim (ite_err_elim _ (parse_str_err r0) (ok_no_err _ _)) (fun gii r1 => ?_)
  refine pbind_elim (parse_str_err r1) (fun cid r2 => ?_)
  refine pbind_elim (parse_str_err r2) (fun chost r3 => ?_)
  refine pbind_elim (ite_err_elim _ (parse_i32_err r3) (ok_no_err _ _)) (fun rt r4 => ?_)
  refine pbind_elim (parse_i32_err r4) (fun st r5 => ?_)
  refine pbind_elim (parse_i32_err r5) (fun sl r6 => ?_)
  refine pbind_elim (fun e' h' => wrapBP_err _ e' h') (fun sb r7 => ?_)
  intro e' h'
  rcases hs : ConsumerProtocolSubscription.try_from sb with es | ⟨sub, rs⟩
  · rw [hs] at h'
    injection h' with h2
    subst h2
    exact sub_err sb es hs
  · rw [hs] at h'
    revert h'
    refine pbind_elim (parse_i32_err r7) (fun al r8 => ?_) e'
    refine pbind_elim (fun e2 h2 => wrapBP_err _ e2 h2) (fun ab r9 => ?_)
    intro e2 h2
    rcases ha : ConsumerProtocolAssignment.try_from ab with ea | ⟨asg, ra⟩
    · rw [ha] at h2
      injection h2 with h3
      subst h3
      exact asg_err ab ea ha
    · rw [ha] at h2
      nomatch h2

theorem oc_key_err (bs : Bytes) (mv : Int) :
    ∀ e, OffsetCommit.try_from bs mv = .error e → nestedSafeErr e = true := by
  intro e h
  rw [OffsetCommit.try_from] at h
  refine pbind_elim (parse_str_err bs) (fun g r0 => ?_) e h
  refine pbind_elim (parse_str_err r0) (fun t r1 => ?_)
  refine pbind_elim (parse_i32_err r1) (fun p r2 => ok_no_err _ _)

theorem gm_key_err (bs : Bytes) (mv : Int) :
    ∀ e, GroupMetadata.try_from bs mv = .error e → nestedSafeErr e = true := by
  intro e h
  rw [GroupMetadata.try_from] at h
  refine pbind_elim (parse_str_err bs) (fun g r0 => ok_no_err _ _) e h

theorem oc_payload_err_cases (oc : OffsetCommit) (bs : Bytes) (e : KonsumerOffsetsError)
    (h : oc.parse_payload bs = .error e) :
    nestedSafeErr e = true ∨
      ∃ v r, parse_i16 bs = .ok (v, r) ∧ e = .UnsupportedOffsetCommitSchema v
        ∧ ¬ (0 ≤ v ∧ v ≤ 3) := by
  rw [OffsetCommit.parse_payload] at h
  rcases h16 : parse_i16 bs with e0 | ⟨sv, r0⟩
  · rw [h16, pbind_err] at h
    injection h with h2
    subst h2
    exact Or.inl (parse_i16_err bs _ h16)
  · rw [h16, pbind_ok] at h
    by_cases hsv : 0 ≤ sv ∧ sv ≤ 3
    · rw [if_neg (not_not_intro hsv)] at h
      refine Or.inl ?_
      revert h
      refine pbind_elim (parse_i64_err r0) (fun off r1 => ?_) e
      refine pbind_elim (ite_err_elim _ (parse_i32_err r1) (ok_no_err _ _)) (fun le r2 => ?_)
      refine pbind_elim (parse_str_err r2) (fun md r3 => ?_)
      refine pbind_elim (parse_i64_err r3) (fun ct r4 => ?_)
      refine pbind_elim (ite_err_elim _ (parse_i64_err r4) (ok_no_err _ _))
        (fun et r5 => ok_no_err _ _)
    · rw [if_pos hsv] at h
      injection h with h2
      exact Or.inr ⟨sv, r0, rfl, h2.symm, hsv⟩

theorem gm_payload_err_cases (gm : GroupMetadata) (bs : Bytes) (e : KonsumerOffsetsError)
    (h : gm.parse_payload bs = some (.error e)) :
    nestedSafeErr e = true ∨
      ∃ v r, parse_i16 bs = .ok (v, r) ∧ e = .UnsupportedGroupMetadataSchema v
        ∧ ¬ (0 ≤ v ∧ v ≤ 3) := by
  rw [GroupMetadata.parse_payload] at h
  rcases h16 : parse_i16 bs with e0 | ⟨sv, r0⟩
  · simp only [h16, Option.some.injEq, Except.error.injEq] at h
    subst h
    exact Or.inl (parse_i16_err bs _ h16)
  · simp only [h16] at h
    by_cases hsv : 0 ≤ sv ∧ sv ≤ 3
    · rw [if_neg (not_not_intro hsv)] at h
      refine Or.inl ?_
      rcases h1 : parse_str r0 with e1 | ⟨pt, r1⟩
      · simp only [h1, Option.some.injEq, Except.error.injEq] at h
        subst h; exact parse_str_err r0 _ h1
      · simp only [h1] at h
        rcases h2 : parse_i32 r1 with e2 | ⟨gen, r2⟩
        · simp only [h2, Option.some.injEq, Except.error.injEq] at h
          subst h; exact parse_i32_err r1 _ h2
        · simp only [h2] at h
          rcases h3 : parse_str r2 with e3 | ⟨proto, r3⟩
          · simp only [h3, Option.some.injEq, Except.error.injEq] at h
            subst h; exact parse_str_err r2 _ h3
          · simp only [h3] at h
            rcases h4 : parse_str r3 with e4 | ⟨leader, r4⟩
            · simp only [h4, Option.some.injEq, Except.error.injEq] at h
              subst h; exact parse_str_err r3 _ h4
            · simp only [h4] at h
              rcases h5 : (if 2 ≤ sv then parse_i64 r4 else .ok (-1, r4)) with e5 | ⟨cst, r5⟩
              · simp only [h5, Option.some.injEq, Except.error.injEq] at h
                subst h
                exact ite_err_elim _ (parse_i64_err r4) (ok_no_err _ _) e5 h5
              · simp only [h5] at h
                rcases h6 : parse_i32 r5 with e6 | ⟨ml, r6⟩
                · simp only [h6, Option.some.injEq, Except.error.injEq] at h
                  subst h; exact parse_i32_err r5 _ h6
                · simp only [h6] at h
                  by_cases hml : ml < 0
                  · rw [if_pos hml] at h; nomatch h
                  · rw [if_neg hml] at h
                    rcases h7 : parseListN (fun b => MemberMetadata.try_from b sv)
                        ml.toNat r6 with e7 | ⟨mbrs, r7⟩
                    · simp only [h7, Option.some.injEq, Except.error.injEq] at h
                      subst h
                      exact parseListN_err _ (fun b => member_err b sv) ml.toNat r6 _ h7
                    · simp only [h7] at h; nomatch h
    · rw [if_pos hsv] at h
      injection h with h2
      injection h2 with h3
      exact Or.inr ⟨sv, r0, rfl, h3.symm, hsv⟩

/-- Whether a dispatcher outcome is the `UnableToParseForVersion` error. -/
def resultIsUTPFV : Option (Except KonsumerOffsetsError KonsumerOffsetsData) → Bool
  | some (.error e) => isUTPFV e
  | _ => false

/-- **C9.** For every input decoded through the public entry point
`try_from_bytes`, the `unable-to-parse-for-version` error is never returned:
`TopicPartitions::try_from` is only ever invoked with the schema version of an
enclosing subscription or assignment that was already validated to lie in
`[0,3]`, so its version-greater-than-3 guard branch is unreachable from the
public interface. -/
theorem claim_C9_no_unable_to_parse (key payload : Option Bytes) :
    resultIsUTPFV (KonsumerOffsetsData.try_from_bytes key payload) = false := by
  rw [KonsumerOffsetsData.try_from_bytes.eq_def]
  cases key with
  | none => rfl
  | some kb =>
    rcases hk : parse_i16 kb with e0 | ⟨mv, kr⟩
    · simp only [hk, resultIsUTPFV]
      exact nestedSafeErr_not_utpfv _ (parse_i16_err kb _ hk)
    · simp only [hk]
      by_cases h01 : mv = 0 ∨ mv = 1
      · rw [if_pos h01]
        rcases hoc : OffsetCommit.try_from kr mv with e1 | ⟨oc, rr⟩
        · simp only [hoc, resultIsUTPFV]
          exact nestedSafeErr_not_utpfv _ (oc_key_err kr mv _ hoc)
        · simp only [hoc]
          cases payload with
          | none => rfl
          | some pb =>
            rcases hpp : oc.parse_payload pb with e2 | ⟨oc2, r2⟩
            · simp only [hpp, resultIsUTPFV]
              rcases oc_payload_err_cases oc pb e2 hpp with hs | ⟨v, r, _, he, _⟩
              · exact nestedSafeErr_not_utpfv _ hs
              · subst he; rfl
            · simp only [hpp]; rfl
      · rw [if_neg h01]
        by_cases h2 : mv = 2
        · rw [if_pos h2]
          rcases hgm : GroupMetadata.try_from kr mv with e1 | ⟨gm, rr⟩
          · simp only [hgm, resultIsUTPFV]
            exact nestedSafeErr_not_utpfv _ (gm_key_err kr mv _ hgm)
          · simp only [hgm]
            cases payload with
            | none => rfl
            | some pb =>
              rcases hpp : gm.parse_payload pb with _ | er
              · simp only [hpp]; rfl
              · rcases er with e2 | ⟨gm2, r2⟩
                · simp only [hpp, resultIsUTPFV]
                  rcases gm_payload_err_cases gm pb e2 hpp with hs | ⟨v, r, _, he, _⟩
                  · exact nestedSafeErr_not_utpfv _ hs
                  · subst he; rfl
                · simp only [hpp]; rfl
        · rw [if_neg h2]; rfl

/-- **C2 (counterexample).** The claim says the parent component of the
guard error names the invoking parent type, with the assignment equivalent
when invoked from an assignment.  The decoder invoked by
`ConsumerProtocolAssignment::try_from` is this very function, and at the
concrete input (empty stream, version 4) its error names
`ConsumerProtocolSubscription`, not `ConsumerProtocolAssignment` — the
parent component is hardcoded. -/
theorem claim_C2_counterexample :
    TopicPartitions.try_from [] 4
      = .error (.UnableToParseForVersion "TopicPartitions" 4 "ConsumerProtocolSubscription")
    ∧ TopicPartitions.try_from [] 4
      ≠ .error (.UnableToParseForVersion "TopicPartitions" 4 "ConsumerProtocolAssignment") := by
  constructor
  · rfl
  · intro hc
    rw [show TopicPartitions.try_from ([] : Bytes) 4
        = Except.error (KonsumerOffsetsError.UnableToParseForVersion "TopicPartitions" 4
            "ConsumerProtocolSubscription") from rfl] at hc
    injection hc with h2
    injection h2 with h3 h4 h5
    exact absurd h5 (by decide)

/-- **C2 (amended).** For every byte stream and every version `v > 3`, the
`TopicPartitions` decoder fails — with the same error for every stream, hence
before consuming any bytes — with `unable-to-parse-for-version` whose
structure component is `"TopicPartitions"`, whose version component is `v`,
and whose parent component is always `"ConsumerProtocolSubscription"`,
regardless of whether the invoking parent is a subscription or an
assignment. -/
theorem claim_C2_guard (bs : Bytes) (v : Int) (hv : 3 < v) :
    TopicPartitions.try_from bs v
      = .error (.UnableToParseForVersion "TopicPartitions" v "ConsumerProtocolSubscription") := by
  rw [TopicPartitions.try_from, if_pos hv]

/-- Witness for **C2**: the guard fires at version 4 on a nonempty stream. -/
theorem claim_C2_guard_witness :
    TopicPartitions.try_from [0, 0] 4
      = .error (.UnableToParseForVersion "TopicPartitions" 4 "ConsumerProtocolSubscription") :=
  claim_C2_guard [0, 0] 4 (by norm_num)

/-- **C5.** For every input stream, the string-read operation first reads an
`i16` length `L`; if `L < 0` it returns the empty string without error and
without consuming further bytes (the remaining stream is exactly the stream
after the length); if `L ≥ 0` it reads exactly `L` bytes (when they are
available) and fails with the malformed-text byte-parsing error if and only
if those bytes are not valid UTF-8. -/
theorem claim_C5_parse_str (bs : Bytes) (L : Int) (r : Bytes)
    (h : parse_i16 bs = .ok (L, r)) :
    (L < 0 → parse_str bs = .ok ([], r)) ∧
    (0 ≤ L → L.toNat ≤ r.length →
      ((utf8Valid (r.take L.toNat) = true →
          parse_str bs = .ok (r.take L.toNat, r.drop L.toNat)) ∧
       (utf8Valid (r.take L.toNat) = false →
          parse_str bs = .error (.ByteParsingError .InvalidText)))) := by
  constructor
  · intro hneg
    simp only [parse_str, h, if_pos hneg]
  · intro hpos hlen
    have hnotneg : ¬ (L < 0) := not_lt.mpr hpos
    have hsl : BytesParser.parse_slice L.toNat r = .ok (r.take L.toNat, r.drop L.toNat) := by
      rw [BytesParser.parse_slice, if_neg (by omega)]
    constructor
    · intro hval
      simp only [parse_str, h, if_neg hnotneg, BytesParser.parse_str_utf8, hsl, hval,
        if_true, wrapBP]
    · intro hval
      simp only [parse_str, h, if_neg hnotneg, BytesParser.parse_str_utf8, hsl, hval,
        Bool.false_eq_true, if_false, wrapBP]

/-- Witness for **C5**: length `-1` yields the empty string and leaves the
byte after the length untouched. -/
theorem claim_C5_witness : parse_str [255, 255, 7] = .ok ([], [7]) :=
  (claim_C5_parse_str [255, 255, 7] (-1) [7] (by rfl)).1 (by norm_num)

/-- **C6.** For every commit payload, decoding fails with
`unsupported-offset-commit-schema(v)` if and only if the leading `i16` `v` of
the payload is outside `[0,3]`, and for every membership payload, decoding
fails with `unsupported-group-metadata-schema(v)` if and only if its leading
`i16` `v` is outside `[0,3]`; in the out-of-range case the error is the same
for every continuation of the stream, so the check happens before any further
payload field is read. -/
theorem claim_C6_schema_guards (oc : OffsetCommit) (gm : GroupMetadata)
    (bs : Bytes) (v : Int) (r : Bytes) (h : parse_i16 bs = .ok (v, r)) :
    ((v < 0 ∨ 3 < v) →
      oc.parse_payload bs = .error (.UnsupportedOffsetCommitSchema v) ∧
      gm.parse_payload bs = some (.error (.UnsupportedGroupMetadataSchema v))) ∧
    (∀ w, oc.parse_payload bs = .error (.UnsupportedOffsetCommitSchema w) →
      w = v ∧ (v < 0 ∨ 3 < v)) ∧
    (∀ w, gm.parse_payload bs = some (.error (.UnsupportedGroupMetadataSchema w)) →
      w = v ∧ (v < 0 ∨ 3 < v)) := by
  refine ⟨?_, ?_, ?_⟩
  · intro hout
    have hcond : ¬ (0 ≤ v ∧ v ≤ 3) := by omega
    constructor
    · simp only [OffsetCommit.parse_payload, h, pbind_ok, if_pos hcond]
    · simp only [GroupMetadata.parse_payload, h, if_pos hcond]
  · intro w hw
    rcases oc_payload_err_cases oc bs _ hw with hs | ⟨v', r', h16', he, hv'⟩
    · exact absurd hs (by simp [nestedSafeErr])
    · rw [h] at h16'
      injection h16' with h2
      injection h2 with h3 h4
      injection he with h5
      subst h3
      omega
  · intro w hw
    rcases gm_payload_err_cases gm bs _ hw with hs | ⟨v', r', h16', he, hv'⟩
    · exact absurd hs (by simp [nestedSafeErr])
    · rw [h] at h16'
      injection h16' with h2
      injection h2 with h3 h4
      injection he with h5
      subst h3
      omega

/-- Witness for **C6**: a payload whose leading `i16` is `-1` is rejected by
both payload decoders with the respective schema error. -/
theorem claim_C6_witness :
    OffsetCommit.parse_payload
        { message_version := 0, group := [], topic := [], partition := 0,
          is_tombstone := true, schema_version := 0, offset := 0, leader_epoch := 0,
          metadata := [], commit_timestamp := 0, expire_timestamp := 0 }
        [255, 255]
      = .error (.UnsupportedOffsetCommitSchema (-1)) ∧
    GroupMetadata.parse_payload
        { message_version := 2, group := [], is_tombstone := true, schema_version := 0,
          protocol_type := [], generation := 0, protocol := [], leader := [],
          current_state_timestamp := 0, members := [] }
        [255, 255]
      = some (.error (.UnsupportedGroupMetadataSchema (-1))) :=
  (claim_C6_schema_guards _ _ [255, 255] (-1) [] (by rfl)).1 (by norm_num)

/-- **C8.** (code bug evaluation) A membership record whose payload carries
the member count `-2` makes the decode panic (`Vec::with_capacity` capacity
overflow) instead of returning a complete record or a single typed error:
the dispatcher's outcome is the `none` (panic) case, a third outcome the
claim's dichotomy does not allow. -/
theorem claim_C8_panic_eval :
    KonsumerOffsetsData.try_from_bytes (some [0, 2, 0, 0])
        (some [0, 0, 0, 0, 0, 0, 0, 0, 0, 0, 0, 0, 255, 255, 255, 254]) = none := by
  rfl

/-- **C10.** (code bug evaluation) A membership payload whose member-count
`i32` is `-1` does not produce a record with an empty member list: the decode
reaches the member count (second conjunct: those four bytes read as `-1`) and
then panics in `Vec::with_capacity((-1i32) as usize)` — the `none` outcome —
before the loop whose bound would have been benign. -/
theorem claim_C10_panic_eval :
    KonsumerOffsetsData.try_from_bytes (some [0, 2, 0, 0])
        (some [0, 0, 0, 0, 0, 0, 0, 0, 0, 0, 0, 0, 255, 255, 255, 255]) = none
    ∧ parse_i32 [255, 255, 255, 255] = .ok (-1, []) := by
  constructor <;> rfl

theorem oc_key_shape (bs : Bytes) (mv : Int) (oc : OffsetCommit) (r : Bytes)
    (h : OffsetCommit.try_from bs mv = .ok (oc, r)) :
    oc.is_tombstone = true ∧ oc.schema_version = 0 ∧ oc.offset = 0 ∧
    oc.leader_epoch = 0 ∧ oc.metadata = [] ∧ oc.commit_timestamp = 0 ∧
    oc.expire_timestamp = 0 := by
  rw [OffsetCommit.try_from] at h
  rcases h1 : parse_str bs with e | ⟨g, r0⟩
  · rw [h1, pbind_err] at h; nomatch h
  · rw [h1, pbind_ok] at h
    rcases h2 : parse_str r0 with e | ⟨t, r1⟩
    · rw [h2, pbind_err] at h; nomatch h
    · rw [h2, pbind_ok] at h
      rcases h3 : parse_i32 r1 with e | ⟨p, r2⟩
      · rw [h3, pbind_err] at h; nomatch h
      · rw [h3, pbind_ok] at h
        injection h with h4
        injection h4 with h5 h6
        subst h5
        exact ⟨rfl, rfl, rfl, rfl, rfl, rfl, rfl⟩

theorem oc_payload_not_tombstone (oc oc' : OffsetCommit) (bs r : Bytes)
    (h : oc.parse_payload bs = .ok (oc', r)) : oc'.is_tombstone = false := by
  rw [OffsetCommit.parse_payload] at h
  rcases h1 : parse_i16 bs with e | ⟨sv, r0⟩
  · rw [h1, pbind_err] at h; nomatch h
  · rw [h1, pbind_ok] at h
    by_cases hsv : 0 ≤ sv ∧ sv ≤ 3
    · rw [if_neg (not_not_intro hsv)] at h
      rcases h2 : parse_i64 r0 with e | ⟨off, r1⟩
      · rw [h2, pbind_err] at h; nomatch h
      · rw [h2, pbind_ok] at h
        rcases h3 : (if 3 ≤ sv then parse_i32 r1 else .ok (-1, r1)) with e | ⟨le, r2⟩
        · rw [h3, pbind_err] at h; nomatch h
        · rw [h3, pbind_ok] at h
          rcases h4 : parse_str r2 with e | ⟨md, r3⟩
          · rw [h4, pbind_err] at h; nomatch h
          · rw [h4, pbind_ok] at h
            rcases h5 : parse_i64 r3 with e | ⟨ct, r4⟩
            · rw [h5, pbind_err] at h; nomatch h
            · rw [h5, pbind_ok] at h
              rcases h6 : (if sv = 1 then parse_i64 r4 else .ok (-1, r4)) with e | ⟨et, r5⟩
              · rw [h6, pbind_err] at h; nomatch h
              · rw [h6, pbind_ok] at h
                injection h with h7
                injection h7 with h8 h9
                subst h8
                rfl
    · rw [if_pos hsv] at h; nomatch h

/-- **C3.** For every commit record with a well-formed key (one the
dispatcher accepts and routes to the commit decoder): if the payload is
absent, the decoded record has `is_tombstone = true` and all payload-derived
fields at their `Default::default()` zero values; if a payload is present
and decodes successfully, `is_tombstone = false`. -/
theorem claim_C3_tombstone (kb : Bytes) (payload : Option Bytes) (oc : OffsetCommit)
    (h : KonsumerOffsetsData.try_from_bytes (some kb) payload
          = some (.ok (.OffsetCommit oc))) :
    (payload = none → oc.is_tombstone = true ∧ oc.schema_version = 0 ∧ oc.offset = 0 ∧
      oc.leader_epoch = 0 ∧ oc.metadata = [] ∧ oc.commit_timestamp = 0 ∧
      oc.expire_timestamp = 0) ∧
    (∀ pb, payload = some pb → oc.is_tombstone = false) := by
  rw [KonsumerOffsetsData.try_from_bytes.eq_def] at h
  rcases hk : parse_i16 kb with e0 | ⟨mv, kr⟩
  · simp [hk] at h
  · simp only [hk] at h
    by_cases h01 : mv = 0 ∨ mv = 1
    · rw [if_pos h01] at h
      rcases hoc : OffsetCommit.try_from kr mv with e1 | ⟨oc0, rr⟩
      · simp [hoc] at h
      · simp only [hoc] at h
        cases payload with
        | none =>
          simp only [Option.some.injEq, Except.ok.injEq,
            KonsumerOffsetsData.OffsetCommit.injEq] at h
          subst h
          exact ⟨fun _ => oc_key_shape kr mv oc0 rr hoc, fun pb hpb => nomatch hpb⟩
        | some pb =>
          rcases hpp : oc0.parse_payload pb with e2 | ⟨oc2, r2⟩
          · simp [hpp] at h
          · simp only [hpp, Option.some.injEq, Except.ok.injEq,
              KonsumerOffsetsData.OffsetCommit.injEq] at h
            subst h
            exact ⟨(fun hn => nomatch hn),
              fun pb2 _ => oc_payload_not_tombstone oc0 oc2 pb r2 hpp⟩
    · rw [if_neg h01] at h
      by_cases h2 : mv = 2
      · rw [if_pos h2] at h
        rcases hgm : GroupMetadata.try_from kr mv with e1 | ⟨gm, rr⟩
        · simp [hgm] at h
        · simp only [hgm] at h
          cases payload with
          | none => simp at h
          | some pb =>
            rcases hpp : gm.parse_payload pb with _ | er
            · simp [hpp] at h
            · rcases er with e2 | ⟨gm2, r2⟩
              · simp [hpp] at h
              · simp [hpp] at h
      · rw [if_neg h2] at h
        simp at h

/-- Witness for **C3**: the all-zero commit key with no payload decodes to a
tombstone with default payload fields. -/
theorem claim_C3_witness :
    ({ message_version := 0, group := [], topic := [], partition := 0,
       is_tombstone := true, schema_version := 0, offset := 0, leader_epoch := 0,
       metadata := [], commit_timestamp := 0,
       expire_timestamp := 0 } : OffsetCommit).is_tombstone = true ∧
    ({ message_version := 0, group := [], topic := [], partition := 0,
       is_tombstone := true, schema_version := 0, offset := 0, leader_epoch := 0,
       metadata := [], commit_timestamp := 0,
       expire_timestamp := 0 } : OffsetCommit).schema_version = 0 ∧
    ({ message_version := 0, group := [], topic := [], partition := 0,
       is_tombstone := true, schema_version := 0, offset := 0, leader_epoch := 0,
       metadata := [], commit_timestamp := 0,
       expire_timestamp := 0 } : OffsetCommit).offset = 0 ∧
    ({ message_version := 0, group := [], topic := [], partition := 0,
       is_tombstone := true, schema_version := 0, offset := 0, leader_epoch := 0,
       metadata := [], commit_timestamp := 0,
       expire_timestamp := 0 } : OffsetCommit).leader_epoch = 0 ∧
    ({ message_version := 0, group := [], topic := [], partition := 0,
       is_tombstone := true, schema_version := 0, offset := 0, leader_epoch := 0,
       metadata := [], commit_timestamp := 0,
       expire_timestamp := 0 } : OffsetCommit).metadata = [] ∧
    ({ message_version := 0, group := [], topic := [], partition := 0,
       is_tombstone := true, schema_version := 0, offset := 0, leader_epoch := 0,
       metadata := [], commit_timestamp := 0,
       expire_timestamp := 0 } : OffsetCommit).commit_timestamp = 0 ∧
    ({ message_version := 0, group := [], topic := [], partition := 0,
       is_tombstone := true, schema_version := 0, offset := 0, leader_epoch := 0,
       metadata := [], commit_timestamp := 0,
       expire_timestamp := 0 } : OffsetCommit).expire_timestamp = 0 :=
  (claim_C3_tombstone [0, 0, 0, 0, 0, 0, 0, 0, 0, 0] none _ (by rfl)).1 rfl

/-- Whether a decoded record is the commit variant. -/
def isOffsetCommitData : KonsumerOffsetsData → Bool
  | .OffsetCommit _ => true
  | .GroupMetadata _ => false

/-- **C1 (counterexample).** The claim says that whenever the leading `i16`
of the key is `0` or `1` the result *is* a `CommitRecord` variant; but for
the concrete key `[0, 0]` (version tag `0` followed by nothing) the commit
key decoder runs out of bytes and the dispatcher returns a byte-parsing
error, not a `CommitRecord`. -/
theorem claim_C1_counterexample :
    parse_i16 [0, 0] = .ok (0, []) ∧
    KonsumerOffsetsData.try_from_bytes (some [0, 0]) none
      = some (.error (.ByteParsingError .NotEnoughBytes)) := by
  constructor <;> rfl

/-- **C1 (amended).** For every input pair: if the key is `None`, decoding
fails with the missing-key error; otherwise, when the leading `i16` of the
key is `0` or `1` every *successful* result is a `CommitRecord` variant
(decoding may still fail with a typed error), when it is `2` every
successful result is a `MembershipRecord` variant, and for every other value
decoding fails with `unsupported-message-version` carrying that exact `i16`
value. -/
theorem claim_C1_dispatch (key payload : Option Bytes) :
    (key = none →
      KonsumerOffsetsData.try_from_bytes key payload = some (.error .MessageKeyMissing)) ∧
    (∀ kb v r, key = some kb → parse_i16 kb = .ok (v, r) →
      (((v = 0 ∨ v = 1) →
          ∀ d, KonsumerOffsetsData.try_from_bytes key payload = some (.ok d) →
            isOffsetCommitData d = true) ∧
       (v = 2 →
          ∀ d, KonsumerOffsetsData.try_from_bytes key payload = some (.ok d) →
            isOffsetCommitData d = false) ∧
       (¬ (v = 0 ∨ v = 1 ∨ v = 2) →
          KonsumerOffsetsData.try_from_bytes key payload
            = some (.error (.UnsupportedMessageVersion v))))) := by
  constructor
  · intro hk
    subst hk
    rfl
  · intro kb v r hk h16
    subst hk
    refine ⟨?_, ?_, ?_⟩
    · intro h01 d hd
      rw [KonsumerOffsetsData.try_from_bytes.eq_def] at hd
      simp only [h16] at hd
      rw [if_pos h01] at hd
      rcases hoc : OffsetCommit.try_from r v with e1 | ⟨oc0, rr⟩
      · simp [hoc] at hd
      · simp only [hoc] at hd
        cases payload with
        | none =>
          simp only [Option.some.injEq, Except.ok.injEq] at hd
          subst hd
          rfl
        | some pb =>
          rcases hpp : oc0.parse_payload pb with e2 | ⟨oc2, r2⟩
          · simp [hpp] at hd
          · simp only [hpp, Option.some.injEq, Except.ok.injEq] at hd
            subst hd
            rfl
    · intro h2 d hd
      rw [KonsumerOffsetsData.try_from_bytes.eq_def] at hd
      simp only [h16] at hd
      rw [if_neg (by omega), if_pos h2] at hd
      rcases hgm : GroupMetadata.try_from r v with e1 | ⟨gm0, rr⟩
      · simp [hgm] at hd
      · simp only [hgm] at hd
        cases payload with
        | none =>
          simp only [Option.some.injEq, Except.ok.injEq] at hd
          subst hd
          rfl
        | some pb =>
          rcases hpp : gm0.parse_payload pb with _ | er
          · simp [hpp] at hd
          · rcases er with e2 | ⟨gm2, r2⟩
            · simp [hpp] at hd
            · simp only [hpp, Option.some.injEq, Except.ok.injEq] at hd
              subst hd
              rfl
    · intro hother
      rw [KonsumerOffsetsData.try_from_bytes.eq_def]
      simp only [h16]
      rw [if_neg (by tauto), if_neg (by tauto)]

/-- Witness for **C1**: an unsupported version tag `99` is reported with
that exact value. -/
theorem claim_C1_dispatch_witness :
    KonsumerOffsetsData.try_from_bytes (some [0, 99]) none
      = some (.error (.UnsupportedMessageVersion 99)) :=
  ((claim_C1_dispatch (some [0, 99]) none).2 [0, 99] 99 [] rfl (by rfl)).2.2 (by norm_num)

/-- **C4.** For every commit payload that decodes successfully, the fields
are consumed in the fixed order `schema_version`, `offset`, gated
`leader_epoch`, `metadata`, `commit_timestamp`, gated `expire_timestamp`:
for every supported schema version `v` and every choice of field values, the
payload laid out in exactly that order decodes to exactly those fields, with
`leader_epoch` taken from the stream if and only if the `(if 3 ≤ v ...)`
segment is present (i.e. `v ≥ 3`) and `-1` otherwise, and `expire_timestamp`
taken from the stream if and only if the `(if v = 1 ...)` segment is present
(i.e. `v = 1`) and exactly `-1` otherwise; the bytes `rest` after the
version-determined field sequence are left unconsumed. -/
theorem claim_C4_commit_payload (oc : OffsetCommit) (v off le ct et : Int)
    (m rest : Bytes) (hv0 : 0 ≤ v) (hv3 : v ≤ 3)
    (hoff1 : -(2 ^ 63) ≤ off) (hoff2 : off < 2 ^ 63)
    (hle1 : -(2 ^ 31) ≤ le) (hle2 : le < 2 ^ 31)
    (hct1 : -(2 ^ 63) ≤ ct) (hct2 : ct < 2 ^ 63)
    (het1 : -(2 ^ 63) ≤ et) (het2 : et < 2 ^ 63)
    (hm : utf8Valid m = true) (hml : m.length < 2 ^ 15) :
    oc.parse_payload
        (enc16 v ++ (enc64 off ++ ((if 3 ≤ v then enc32 le else []) ++
          (encStr m ++ (enc64 ct ++ ((if v = 1 then enc64 et else []) ++ rest))))))
      = .ok ({ oc with
               is_tombstone := false
               schema_version := v
               offset := off
               leader_epoch := if 3 ≤ v then le else -1
               metadata := m
               commit_timestamp := ct
               expire_timestamp := if v = 1 then et else -1 }, rest) := by
  have d16v : ∀ s, parse_i16 (enc16 v ++ s) = .ok (v, s) :=
    fun s => dec_i16 v s (by omega) (by omega)
  have d64off : ∀ s, parse_i64 (enc64 off ++ s) = .ok (off, s) :=
    fun s => dec_i64 off s hoff1 hoff2
  have d32le : ∀ s, parse_i32 (enc32 le ++ s) = .ok (le, s) :=
    fun s => dec_i32 le s hle1 hle2
  have dstrm : ∀ s, parse_str (encStr m ++ s) = .ok (m, s) :=
    fun s => dec_str m s hml hm
  have d64ct : ∀ s, parse_i64 (enc64 ct ++ s) = .ok (ct, s) :=
    fun s => dec_i64 ct s hct1 hct2
  have d64et : ∀ s, parse_i64 (enc64 et ++ s) = .ok (et, s) :=
    fun s => dec_i64 et s het1 het2
  have hrange : ¬ ¬ (0 ≤ v ∧ v ≤ 3) := not_not_intro ⟨hv0, hv3⟩
  by_cases h3 : 3 ≤ v <;> by_cases h1 : v = 1
  · simp only [OffsetCommit.parse_payload, d16v, pbind_ok, if_neg hrange, if_pos h3,
      if_pos h1, d64off, d32le, dstrm, d64ct, d64et, List.nil_append]
  · simp only [OffsetCommit.parse_payload, d16v, pbind_ok, if_neg hrange, if_pos h3,
      if_neg h1, d64off, d32le, dstrm, d64ct, d64et, List.nil_append]
  · simp only [OffsetCommit.parse_payload, d16v, pbind_ok, if_neg hrange, if_neg h3,
      if_pos h1, d64off, d32le, dstrm, d64ct, d64et, List.nil_append]
  · simp only [OffsetCommit.parse_payload, d16v, pbind_ok, if_neg hrange, if_neg h3,
      if_neg h1, d64off, d32le, dstrm, d64ct, d64et, List.nil_append]

/-- Witness for **C4**: schema version 1 with concrete field values — the
`leader_epoch` segment is absent (defaulted to `-1`) and the
`expire_timestamp` segment is present and read. -/
theorem claim_C4_witness :
    OffsetCommit.parse_payload
        { message_version := 0, group := [], topic := [], partition := 0,
          is_tombstone := true, schema_version := 0, offset := 0, leader_epoch := 0,
          metadata := [], commit_timestamp := 0, expire_timestamp := 0 }
        (enc16 1 ++ (enc64 5 ++ ((if 3 ≤ (1 : Int) then enc32 0 else []) ++
          (encStr [] ++ (enc64 7 ++ ((if (1 : Int) = 1 then enc64 9 else []) ++ []))))))
      = .ok ({ message_version := 0, group := [], topic := [], partition := 0,
               is_tombstone := false, schema_version := 1, offset := 5,
               leader_epoch := if 3 ≤ (1 : Int) then 0 else -1, metadata := [],
               commit_timestamp := 7,
               expire_timestamp := if (1 : Int) = 1 then 9 else -1 }, []) :=
  claim_C4_commit_payload _ 1 5 0 7 9 [] [] (by norm_num) (by norm_num)
    (by norm_num) (by norm_num) (by norm_num) (by norm_num) (by norm_num)
    (by norm_num) (by norm_num) (by norm_num) (by rfl) (by norm_num)

/-- **C7.** For every member record, the subscription and assignment blobs
are each decoded from an isolated sub-cursor carved to exactly the `i32`
blob length read from the stream: the nested decoder is run on the carved
bytes alone (so it cannot read past the carved boundary), any carved bytes
it leaves unconsumed (`subLeft`, `asgLeft` — arbitrary here) are silently
ignored, and the outer cursor afterwards sits exactly blob-length bytes past
the length tag, i.e. the member decode finishes at `rest`. -/
theorem claim_C7_blob_carving (sv : Int) (idb gii cid chost : Bytes)
    (rt st : Int) (subBlob asgBlob rest : Bytes)
    (sub : ConsumerProtocolSubscription) (subLeft : Bytes)
    (asg : ConsumerProtocolAssignment) (asgLeft : Bytes)
    (hid1 : utf8Valid idb = true) (hid2 : idb.length < 2 ^ 15)
    (hgii1 : utf8Valid gii = true) (hgii2 : gii.length < 2 ^ 15)
    (hcid1 : utf8Valid cid = true) (hcid2 : cid.length < 2 ^ 15)
    (hch1 : utf8Valid chost = true) (hch2 : chost.length < 2 ^ 15)
    (hrt1 : -(2 ^ 31) ≤ rt) (hrt2 : rt < 2 ^ 31)
    (hst1 : -(2 ^ 31) ≤ st) (hst2 : st < 2 ^ 31)
    (hsb : subBlob.length < 2 ^ 31) (hab : asgBlob.length < 2 ^ 31)
    (hsub : ConsumerProtocolSubscription.try_from subBlob = .ok (sub, subLeft))
    (hasg : ConsumerProtocolAssignment.try_from asgBlob = .ok (asg, asgLeft)) :
    MemberMetadata.try_from
        (encStr idb ++ ((if 3 ≤ sv then encStr gii else []) ++ (encStr cid ++
          (encStr chost ++ ((if 1 ≤ sv then enc32 rt else []) ++ (enc32 st ++
            (enc32 (subBlob.length : Int) ++ (subBlob ++
              (enc32 (asgBlob.length : Int) ++ (asgBlob ++ rest)))))))))) sv
      = .ok ({ id := idb
               group_instance_id := if 3 ≤ sv then gii else []
               client_id := cid
               client_host := chost
               rebalance_timeout := if 1 ≤ sv then rt else 0
               session_timeout := st
               subscription := sub
               assignment := asg }, rest) := by
  have dsid : ∀ s, parse_str (encStr idb ++ s) = .ok (idb, s) :=
    fun s => dec_str idb s hid2 hid1
  have dsgii : ∀ s, parse_str (encStr gii ++ s) = .ok (gii, s) :=
    fun s => dec_str gii s hgii2 hgii1
  have dscid : ∀ s, parse_str (encStr cid ++ s) = .ok (cid, s) :=
    fun s => dec_str cid s hcid2 hcid1
  have dsch : ∀ s, parse_str (encStr chost ++ s) = .ok (chost, s) :=
    fun s => dec_str chost s hch2 hch1
  have d32rt : ∀ s, parse_i32 (enc32 rt ++ s) = .ok (rt, s) :=
    fun s => dec_i32 rt s hrt1 hrt2
  have d32st : ∀ s, parse_i32 (enc32 st ++ s) = .ok (st, s) :=
    fun s => dec_i32 st s hst1 hst2
  have d32sl : ∀ s, parse_i32 (enc32 (subBlob.length : Int) ++ s)
      = .ok ((subBlob.length : Int), s) :=
    fun s => dec_i32 _ s (by omega) (by exact_mod_cast hsb)
  have d32al : ∀ s, parse_i32 (enc32 (asgBlob.length : Int) ++ s)
      = .ok ((asgBlob.length : Int), s) :=
    fun s => dec_i32 _ s (by omega) (by exact_mod_cast hab)
  have dslsub : ∀ s, wrapBP (BytesParser.parse_slice
      (usize_of_i32 (subBlob.length : Int)) (subBlob ++ s)) = .ok (subBlob, s) := by
    intro s
    rw [usize_of_i32_nonneg _ (by omega) (by exact_mod_cast hsb), Int.toNat_natCast,
      parse_slice_exact]
    rfl
  have dslasg : ∀ s, wrapBP (BytesParser.parse_slice
      (usize_of_i32 (asgBlob.length : Int)) (asgBlob ++ s)) = .ok (asgBlob, s) := by
    intro s
    rw [usize_of_i32_nonneg _ (by omega) (by exact_mod_cast hab), Int.toNat_natCast,
      parse_slice_exact]
    rfl
  by_cases h3 : 3 ≤ sv <;> by_cases h1 : 1 ≤ sv
  · simp only [MemberMetadata.try_from, dsid, pbind_ok, if_pos h3, if_pos h1, dsgii,
      dscid, dsch, d32rt, d32st, d32sl, dslsub, hsub, d32al, dslasg, hasg,
      List.nil_append]
  · simp only [MemberMetadata.try_from, dsid, pbind_ok, if_pos h3, if_neg h1, dsgii,
      dscid, dsch, d32rt, d32st, d32sl, dslsub, hsub, d32al, dslasg, hasg,
      List.nil_append]
  · simp only [MemberMetadata.try_from, dsid, pbind_ok, if_neg h3, if_pos h1, dsgii,
      dscid, dsch, d32rt, d32st, d32sl, dslsub, hsub, d32al, dslasg, hasg,
      List.nil_append]
  · simp only [MemberMetadata.try_from, dsid, pbind_ok, if_neg h3, if_neg h1, dsgii,
      dscid, dsch, d32rt, d32st, d32sl, dslsub, hsub, d32al, dslasg, hasg,
      List.nil_append]

/-- Witness for **C7**: an 11-byte subscription blob whose nested decode
consumes only 10 bytes — the leftover byte `7` is ignored and the member
decode still succeeds, finishing exactly at the end of the input. -/
theorem claim_C7_witness :
    MemberMetadata.try_from
        (encStr [] ++ ((if 3 ≤ (0 : Int) then encStr [] else []) ++ (encStr [] ++
          (encStr [] ++ ((if 1 ≤ (0 : Int) then enc32 0 else []) ++ (enc32 0 ++
            (enc32 (([0, 0, 0, 0, 0, 0, 0, 0, 0, 0, 7] : Bytes).length : Int) ++
              ([0, 0, 0, 0, 0, 0, 0, 0, 0, 0, 7] ++
                (enc32 (([0, 0, 0, 0, 0, 0, 0, 0, 0, 0] : Bytes).length : Int) ++
                  ([0, 0, 0, 0, 0, 0, 0, 0, 0, 0] ++ [])))))))))) 0
      = .ok ({ id := []
               group_instance_id := if 3 ≤ (0 : Int) then [] else []
               client_id := []
               client_host := []
               rebalance_timeout := if 1 ≤ (0 : Int) then 0 else 0
               session_timeout := 0
               subscription := { schema_version := 0, subscribed_topics := [],
                                 user_data := [], owned_topic_partitions := [],
                                 generation_id := -1, rack_id := [] }
               assignment := { schema_version := 0, assigned_topic_partitions := [],
                               user_data := [] } }, []) :=
  claim_C7_blob_carving 0 [] [] [] [] 0 0 [0, 0, 0, 0, 0, 0, 0, 0, 0, 0, 7]
    [0, 0, 0, 0, 0, 0, 0, 0, 0, 0] []
    { schema_version := 0, subscribed_topics := [], user_data := [],
      owned_topic_partitions := [], generation_id := -1, rack_id := [] } [7]
    { schema_version := 0, assigned_topic_partitions := [], user_data := [] } []
    (by rfl) (by norm_num) (by rfl) (by norm_num) (by rfl) (by norm_num) (by rfl)
    (by norm_num) (by norm_num) (by norm_num) (by norm_num) (by norm_num)
    (by norm_num) (by norm_num) (by rfl) (by rfl)
